import Mathlib

/-!
Shallow embedding of `src/mmdet3d/models/backbones/frustum_feature_net.py`
(the `FFN` backbone module) and verification of its specification.

Pixel values are modelled by an inductive type with an explicit NaN
constructor; 4-dimensional image batches are nested lists; state
dictionaries are insertion-ordered association lists from layer-name
strings to tensors (shape plus data), matching Python dict semantics.
Python `KeyError` (missing dict key / failing `pop`) and `IndexError`
(indexing `shape[0]` of an empty shape) are modelled with `Except`.
The external torchvision model zoo is out of scope of the repository;
its structural surface (named submodules of a DeepLabV3-over-ResNet
model) is represented by records whose numeric kernels are opaque
placeholder transforms, since no claim depends on the kernels.
-/

/-- A scalar value of an input image tensor: either IEEE NaN or a number
(reals modelled by rationals). -/
inductive Val where
  | nan : Val
  | num : ℚ → Val
deriving DecidableEq

/-- `torch.isnan` on a single scalar. -/
def Val.isnan : Val → Bool
  | .nan => true
  | .num _ => false

/-- Effect of the masked write `x[mask] = 0` (line 148) on one scalar:
positions where `torch.isnan` held become `0`, others are unchanged. -/
def maskVal (v : Val) : Val :=
  if v.isnan then Val.num 0 else v

/-- A 4-dimensional image batch `(N, C, H, W)` as nested lists. -/
abbrev Tensor4 := List (List (List (List Val)))

/-- `mask = torch.isnan(x); x[mask] = 0` applied to a whole batch. -/
def maskNan (x : Tensor4) : Tensor4 :=
  x.map (fun a => a.map (fun b => b.map (fun c => c.map maskVal)))

/-- Whether a batch contains at least one NaN position. -/
def hasNan (x : Tensor4) : Bool :=
  x.any (fun a => a.any (fun b => b.any (fun c => c.any Val.isnan)))

/-- Element lookup in a 4-dimensional batch. -/
def get4 (x : Tensor4) (i j k l : Nat) : Option Val :=
  x[i]?.bind fun a => a[j]?.bind fun b => b[k]?.bind fun r => r[l]?

/-- A weight tensor of a state dictionary: its shape and (flattened) data. -/
structure Tensor where
  shape : List Nat
  data : List ℚ
deriving DecidableEq

/-- A state dictionary: an insertion-ordered map from layer-name strings
to weight tensors (`OrderedDict` in the source). -/
abbrev SDict := List (String × Tensor)

/-- Python `key in dict`. -/
def containsKey (d : SDict) (k : String) : Bool :=
  d.any (fun kv => kv.1 == k)

/-- Python `dict.get(key)`: the value stored under `k`, if any. -/
def getVal (d : SDict) (k : String) : Option Tensor :=
  (d.find? (fun kv => kv.1 == k)).map (·.2)

/-- Whether `pat` occurs in `s` starting at some position of `s`. -/
def listInfix (pat : List Char) : List Char → Bool
  | [] => pat.isPrefixOf []
  | a :: rest => pat.isPrefixOf (a :: rest) || listInfix pat rest

/-- Python substring containment `pat in s`. -/
def strContains (s pat : String) : Bool :=
  listInfix pat.toList s.toList

/-- Runtime errors that `FFN.filter_pretrained_dict` can raise:
`KeyError` from `dict[key]` or `dict.pop(key)`, and `IndexError`
from `tensor.shape[0]` on a 0-dimensional tensor. -/
inductive FilterError where
  | keyError : String → FilterError
  | indexError : FilterError
deriving DecidableEq

deriving instance DecidableEq for Except

/-- Python `dict[key]`: raises `KeyError` when the key is absent. -/
def getItem (d : SDict) (k : String) : Except FilterError Tensor :=
  match getVal d k with
  | some t => .ok t
  | none => .error (.keyError k)

/-- Python `tensor.shape[0]`: raises `IndexError` on an empty shape. -/
def shape0 (t : Tensor) : Except FilterError Nat :=
  match t.shape with
  | [] => .error .indexError
  | n :: _ => .ok n

/-- Python `dict.pop(key)` (result dictionary only): raises `KeyError`
when the key is absent. -/
def popKey (d : SDict) (k : String) : Except FilterError SDict :=
  if containsKey d k then .ok (d.filter (fun kv => !(kv.1 == k))) else .error (.keyError k)

/-- First block of `FFN.filter_pretrained_dict` (lines 97-100): if the
pretrained dictionary has `"aux_classifier.0.weight"` and the model
dictionary does not, keep only the entries whose key does not contain
`"aux_classifier"` (a dict comprehension preserving order and values). -/
def auxFilter (model_dict pretrained_dict : SDict) : SDict :=
  if containsKey pretrained_dict "aux_classifier.0.weight"
      && !(containsKey model_dict "aux_classifier.0.weight") then
    pretrained_dict.filter (fun kv => !(strContains kv.1 "aux_classifier"))
  else
    pretrained_dict

/-- Second block of `FFN.filter_pretrained_dict` (lines 102-107): compare
`model_dict["classifier.4.weight"].shape[0]` with
`pretrained_dict["classifier.4.weight"].shape[0]`; when they differ, pop
`"classifier.4.weight"` and `"classifier.4.bias"` from the pretrained
dictionary. Every Python exception propagates. -/
def classifierFilter (model_dict pd : SDict) : Except FilterError SDict :=
  match getItem model_dict "classifier.4.weight" with
  | .error e => .error e
  | .ok mw =>
    match shape0 mw with
    | .error e => .error e
    | .ok model_num_classes =>
      match getItem pd "classifier.4.weight" with
      | .error e => .error e
      | .ok pw =>
        match shape0 pw with
        | .error e => .error e
        | .ok pretrained_num_classes =>
          if model_num_classes ≠ pretrained_num_classes then
            match popKey pd "classifier.4.weight" with
            | .error e => .error e
            | .ok pd1 =>
              match popKey pd1 "classifier.4.bias" with
              | .error e => .error e
              | .ok pd2 => .ok pd2
          else
            .ok pd

/-- `FFN.filter_pretrained_dict` (lines 88-109): the aux-classifier block
followed by the final-classifier block. -/
def filter_pretrained_dict (model_dict pretrained_dict : SDict) : Except FilterError SDict :=
  classifierFilter model_dict (auxFilter model_dict pretrained_dict)

/-- Structural role of a torchvision layer stage (external library,
recorded so that the truncated network's composition can be stated). -/
inductive LayerKind where
  | conv2d
  | batchNorm
  | reluAct
  | maxPool
  | residualStage
  | deeplabHead
  | fcnHead
deriving DecidableEq

/-- One layer stage: its structural role and its transform on batches.
The numeric kernels live in the external tensor runtime; they are
opaque to this repository, so theorems never fix `run`. -/
structure Layer where
  kind : LayerKind
  run : Tensor4 → Tensor4

/-- Named submodules of a torchvision ResNet backbone (external). -/
structure ResNetBackbone where
  conv1 : Layer
  bn1 : Layer
  relu : Layer
  maxpool : Layer
  layer1 : Layer
  layer2 : Layer
  layer3 : Layer
  layer4 : Layer

/-- A torchvision DeepLabV3 segmentation model (external): backbone,
classifier head, optional aux head, and its state dictionary. -/
structure SegModel where
  backbone : ResNetBackbone
  classifier : Layer
  aux_classifier : Option Layer
  state_dict : SDict

/-- Placeholder transform for an external layer's numeric kernel. -/
def extKernel : Tensor4 → Tensor4 := fun t => t

/-- A representative external backbone: the ResNet stem is a conv,
a batch norm, a ReLU, a max pool, then four residual stages. -/
def resnetBackbone : ResNetBackbone where
  conv1 := ⟨.conv2d, extKernel⟩
  bn1 := ⟨.batchNorm, extKernel⟩
  relu := ⟨.reluAct, extKernel⟩
  maxpool := ⟨.maxPool, extKernel⟩
  layer1 := ⟨.residualStage, extKernel⟩
  layer2 := ⟨.residualStage, extKernel⟩
  layer3 := ⟨.residualStage, extKernel⟩
  layer4 := ⟨.residualStage, extKernel⟩

/-- External `torchvision.models.segmentation.deeplabv3_resnet50`
(called with `pretrained=False, pretrained_backbone=True`): structural
surface with a representative state dictionary (21 output classes). -/
def deeplabv3_resnet50 : SegModel where
  backbone := resnetBackbone
  classifier := ⟨.deeplabHead, extKernel⟩
  aux_classifier := none
  state_dict :=
    [("backbone.conv1.weight", ⟨[64, 3, 7, 7], []⟩),
     ("classifier.4.weight", ⟨[21, 256, 1, 1], []⟩),
     ("classifier.4.bias", ⟨[21], []⟩)]

/-- External `torchvision.models.segmentation.deeplabv3_resnet101`:
same structural surface. -/
def deeplabv3_resnet101 : SegModel where
  backbone := resnetBackbone
  classifier := ⟨.deeplabHead, extKernel⟩
  aux_classifier := none
  state_dict :=
    [("backbone.conv1.weight", ⟨[64, 3, 7, 7], []⟩),
     ("classifier.4.weight", ⟨[21, 256, 1, 1], []⟩),
     ("classifier.4.bias", ⟨[21], []⟩)]

/-- Errors raised by `FFN.__init__`: the bare `NotImplementedError` for
an unrecognized constructor name (lines 43-44), or a propagated filtering
error from `get_model`. -/
inductive InitError where
  | notImplementedError : InitError
  | filterError : FilterError → InitError
deriving DecidableEq

/-- The truncated network built by `FFN.get_model` (lines 76-82):
`nn.Sequential(conv1, bn1, relu, maxpool, layer1)`. -/
def truncate (model : SegModel) : List Layer :=
  [model.backbone.conv1, model.backbone.bn1, model.backbone.relu,
   model.backbone.maxpool, model.backbone.layer1]

/-- `FFN.get_model` (lines 53-86): build the full model, optionally load
and filter a checkpoint (the checkpoint's contents stand in for the file
at `pretrained_path`; `torch.load` is external I/O), then truncate.
The merged `load_state_dict` only rewrites weights inside the external
layer kernels, which are opaque here. -/
def get_model (pretrained_path : Option SDict) (constructor : SegModel) :
    Except FilterError (List Layer) :=
  match pretrained_path with
  | some checkpoint =>
    match filter_pretrained_dict constructor.state_dict checkpoint with
    | .error e => .error e
    | .ok _ => .ok (truncate constructor)
  | none => .ok (truncate constructor)

/-- The `FFN` module after construction: configuration, normalization
statistics (present exactly when pretrained), and the truncated network. -/
structure FFN where
  pretrained_path : Option SDict
  pretrained : Bool
  norm_mean : Option (List ℚ)
  norm_std : Option (List ℚ)
  model : List Layer

/-- `FFN.__init__` (lines 17-51): record the pretrained flag and
normalization statistics, resolve the constructor name (anything other
than `"ResNet50"` or `"ResNet101"` raises `NotImplementedError`), and
build the truncated model. -/
def FFN.init (constructor_name : String) (pretrained_path : Option SDict) :
    Except InitError FFN :=
  let pretrained := pretrained_path.isSome
  let norm_mean : Option (List ℚ) :=
    if pretrained then some [0.485, 0.456, 0.406] else none
  let norm_std : Option (List ℚ) :=
    if pretrained then some [0.229, 0.224, 0.225] else none
  match
    (if constructor_name = "ResNet50" then Except.ok deeplabv3_resnet50
     else if constructor_name = "ResNet101" then Except.ok deeplabv3_resnet101
     else Except.error InitError.notImplementedError : Except InitError SegModel)
  with
  | .error e => .error e
  | .ok constructor =>
    match get_model pretrained_path constructor with
    | .error e => .error (InitError.filterError e)
    | .ok model =>
      .ok { pretrained_path := pretrained_path, pretrained := pretrained,
            norm_mean := norm_mean, norm_std := norm_std, model := model }

/-- `FFN.preprocess` (lines 130-149). `x = images` aliases the input; when
`self.pretrained` holds, `x[mask] = 0` writes through that alias, mutating
the caller's tensor in place, and the same object is returned. The first
component is the returned tensor, the second the state of the caller's
input tensor after the call. -/
def FFN.preprocess (f : FFN) (images : Tensor4) : Tensor4 × Tensor4 :=
  if f.pretrained then
    let x := maskNan images
    (x, x)
  else
    (images, images)

/-- Running the truncated `nn.Sequential` on a batch. -/
def applyNet (net : List Layer) (x : Tensor4) : Tensor4 :=
  net.foldl (fun t layer => layer.run t) x

/-- `FFN.forward` (lines 111-128): preprocess, run the truncated network,
return the feature tensor. Components: (returned features, module after
the call, caller's input tensor after the call). -/
def FFN.forward (f : FFN) (images : Tensor4) : Tensor4 × FFN × Tensor4 :=
  let p := f.preprocess images
  (applyNet f.model p.1, f, p.2)

/-! ### Helper lemmas about masking -/

theorem isnan_maskVal (v : Val) : (maskVal v).isnan = false := by
  cases v <;> rfl

theorem get4_maskNan (x : Tensor4) (i j k l : Nat) :
    get4 (maskNan x) i j k l = (get4 x i j k l).map maskVal := by
  unfold get4 maskNan
  cases hx : x[i]? with
  | none => simp [List.getElem?_map, hx]
  | some a =>
    cases ha : a[j]? with
    | none => simp [List.getElem?_map, hx, ha]
    | some b =>
      cases hb : b[k]? with
      | none => simp [List.getElem?_map, hx, ha, hb]
      | some r =>
        cases hr : r[l]? with
        | none => simp [List.getElem?_map, hx, ha, hb, hr]
        | some v => simp [List.getElem?_map, hx, ha, hb, hr]

theorem hasNan_maskNan (x : Tensor4) : hasNan (maskNan x) = false := by
  simp [hasNan, maskNan, List.any_eq_false, isnan_maskVal]

theorem maskNan_ne_of_hasNan (x : Tensor4) (h : hasNan x = true) : maskNan x ≠ x := by
  intro he
  have h2 := hasNan_maskNan x
  rw [he, h] at h2
  cases h2

theorem FFN.init_ok_pretrained (name : String) (p : Option SDict) (f : FFN)
    (h : FFN.init name p = .ok f) : f.pretrained = p.isSome := by
  unfold FFN.init at h
  split at h
  · cases h
  · split at h
    · cases h
    · cases h
      rfl

/-! ### Concrete modules and batches for closed-form checks -/

/-- A module as constructed with a pretrained path set. -/
def ffnPre : FFN where
  pretrained_path := some []
  pretrained := true
  norm_mean := some [0.485, 0.456, 0.406]
  norm_std := some [0.229, 0.224, 0.225]
  model := []

/-- A module as constructed with no pretrained path. -/
def ffnPlain : FFN where
  pretrained_path := none
  pretrained := false
  norm_mean := none
  norm_std := none
  model := truncate deeplabv3_resnet50

/-- The module produced by `FFN.init "ResNet50" none`. -/
def ffn50 : FFN := ((FFN.init "ResNet50" none).toOption).getD ffnPlain

/-- A batch containing NaN positions. -/
def xNanBatch : Tensor4 := [[[[Val.nan, Val.num 1], [Val.num 2, Val.nan]]]]

/-- A batch containing no NaN positions. -/
def xNumBatch : Tensor4 := [[[[Val.num 3, Val.num 4]]]]

/-! ### Claims about construction and the forward pass -/

/-- Claim C1: for every 4-dimensional input batch, forward's preprocessing
behaves as follows: when the module was constructed with `pretrained_path`
set (recorded in the `pretrained` flag), every NaN position of the result
is zero and every other position is unchanged; when `pretrained_path` was
not set, the tensor passes through preprocessing completely unmodified. -/
theorem C1_preprocess_nan_masking :
    (∀ name p f, FFN.init name p = .ok f → f.pretrained = p.isSome) ∧
    (∀ (f : FFN) (x : Tensor4), f.pretrained = true →
      ∀ i j k l, get4 (f.preprocess x).1 i j k l = (get4 x i j k l).map maskVal) ∧
    (∀ (f : FFN) (x : Tensor4), f.pretrained = false → (f.preprocess x).1 = x) := by
  refine ⟨FFN.init_ok_pretrained, ?_, ?_⟩
  · intro f x hp i j k l
    unfold FFN.preprocess
    rw [hp]
    simpa using get4_maskNan x i j k l
  · intro f x hp
    unfold FFN.preprocess
    rw [hp]
    simp

/-- Closed instance of C1: a NaN position becomes zero, a numeric position
is unchanged when pretrained; and the batch is untouched when not. -/
theorem C1_preprocess_nan_masking_witness :
    ffn50.pretrained = (none : Option SDict).isSome ∧
    get4 (ffnPre.preprocess xNanBatch).1 0 0 0 0 = (get4 xNanBatch 0 0 0 0).map maskVal ∧
    get4 (ffnPre.preprocess xNanBatch).1 0 0 0 1 = (get4 xNanBatch 0 0 0 1).map maskVal ∧
    (ffnPlain.preprocess xNanBatch).1 = xNanBatch :=
  ⟨C1_preprocess_nan_masking.1 "ResNet50" none ffn50 rfl,
   C1_preprocess_nan_masking.2.1 ffnPre xNanBatch rfl 0 0 0 0,
   C1_preprocess_nan_masking.2.1 ffnPre xNanBatch rfl 0 0 0 1,
   C1_preprocess_nan_masking.2.2 ffnPlain xNanBatch rfl⟩

/-- Claim C6: construction accepts exactly the constructor identifiers
`"ResNet50"` and `"ResNet101"`; every other name fails synchronously with
the unsupported-constructor error (`NotImplementedError` in the source). -/
theorem C6_constructor_names (name : String) (p : Option SDict) :
    (name ≠ "ResNet50" → name ≠ "ResNet101" →
      FFN.init name p = .error .notImplementedError) ∧
    ((name = "ResNet50" ∨ name = "ResNet101") →
      ∃ f, FFN.init name none = .ok f) := by
  constructor
  · intro h50 h101
    unfold FFN.init
    simp [h50, h101]
  · rintro (rfl | rfl)
    · exact ⟨_, rfl⟩
    · exact ⟨_, rfl⟩

/-- Closed instance of C6: `"ResNet18"` is rejected, `"ResNet50"` accepted. -/
theorem C6_constructor_names_witness :
    FFN.init "ResNet18" none = .error .notImplementedError ∧
    (∃ f, FFN.init "ResNet50" none = .ok f) :=
  ⟨(C6_constructor_names "ResNet18" none).1 (by decide) (by decide),
   (C6_constructor_names "ResNet50" none).2 (Or.inl rfl)⟩

/-- Claim C7: for both supported constructor names, construction succeeds
and the retained network is exactly the ordered five-stage sequence
conv1, bn1, relu, maxpool, layer1 of the backbone (initial convolution,
batch norm, activation, pooling, first residual stage); nothing else of
the full model is kept. -/
theorem C7_truncated_five_stages :
    (FFN.init "ResNet50" none).map FFN.model = .ok (truncate deeplabv3_resnet50) ∧
    (FFN.init "ResNet101" none).map FFN.model = .ok (truncate deeplabv3_resnet101) ∧
    truncate deeplabv3_resnet50 =
      [deeplabv3_resnet50.backbone.conv1, deeplabv3_resnet50.backbone.bn1,
       deeplabv3_resnet50.backbone.relu, deeplabv3_resnet50.backbone.maxpool,
       deeplabv3_resnet50.backbone.layer1] ∧
    truncate deeplabv3_resnet101 =
      [deeplabv3_resnet101.backbone.conv1, deeplabv3_resnet101.backbone.bn1,
       deeplabv3_resnet101.backbone.relu, deeplabv3_resnet101.backbone.maxpool,
       deeplabv3_resnet101.backbone.layer1] ∧
    (truncate deeplabv3_resnet50).map Layer.kind =
      [.conv2d, .batchNorm, .reluAct, .maxPool, .residualStage] ∧
    (truncate deeplabv3_resnet101).map Layer.kind =
      [.conv2d, .batchNorm, .reluAct, .maxPool, .residualStage] :=
  ⟨rfl, rfl, rfl, rfl, rfl, rfl⟩

/-- Claim C8: for every input batch, forward returns exactly the single
feature tensor obtained by applying the truncated network to the
preprocessed input; no logits, auxiliary output, loss, or dictionary of
results is computed or returned. -/
theorem C8_forward_returns_features (f : FFN) (images : Tensor4) :
    f.forward images =
      (applyNet f.model (f.preprocess images).1, f, (f.preprocess images).2) ∧
    (f.forward images).1 = applyNet f.model (f.preprocess images).1 :=
  ⟨rfl, rfl⟩

/-- Claim C9: with no NaN values in the input and `pretrained_path` unset,
forward is deterministic, depends only on the truncated network's fixed
weights, never mutates the module's state, and leaves the caller's input
tensor untouched, so repeated calls on equal inputs yield equal outputs. -/
theorem C9_forward_deterministic_stateless (f : FFN) (x : Tensor4)
    (hp : f.pretrained = false) (_hx : hasNan x = false) :
    f.forward x = (applyNet f.model x, f, x) ∧
    (f.forward x).2.1 = f ∧
    (f.forward x).2.2 = x ∧
    f.forward ((f.forward x).2.2) = f.forward x := by
  have hpre : f.preprocess x = (x, x) := by
    unfold FFN.preprocess
    rw [hp]
    simp
  have h1 : f.forward x = (applyNet f.model x, f, x) := by
    unfold FFN.forward
    rw [hpre]
  exact ⟨h1, by rw [h1], by rw [h1], by rw [h1]; exact h1⟩

/-- Closed instance of C9 on a NaN-free batch and an unpretrained module. -/
theorem C9_forward_deterministic_stateless_witness :
    ffnPlain.forward xNumBatch = (applyNet ffnPlain.model xNumBatch, ffnPlain, xNumBatch) ∧
    (ffnPlain.forward xNumBatch).2.1 = ffnPlain ∧
    (ffnPlain.forward xNumBatch).2.2 = xNumBatch ∧
    ffnPlain.forward ((ffnPlain.forward xNumBatch).2.2) = ffnPlain.forward xNumBatch :=
  C9_forward_deterministic_stateless ffnPlain xNumBatch rfl rfl

/-- Claim C10: preprocessing returns the very tensor it was given rather
than a copy: with `pretrained_path` set and NaN present in the input, the
caller's input tensor is itself overwritten (its NaN positions become
zero), so the returned tensor and the caller's buffer coincide and the
buffer no longer equals the original input. -/
theorem C10_preprocess_in_place_mutation (f : FFN) (x : Tensor4)
    (hp : f.pretrained = true) (hx : hasNan x = true) :
    (f.preprocess x).1 = (f.preprocess x).2 ∧ (f.preprocess x).2 ≠ x := by
  have hpre : f.preprocess x = (maskNan x, maskNan x) := by
    unfold FFN.preprocess
    rw [hp]
    simp
  exact ⟨by rw [hpre], by rw [hpre]; exact maskNan_ne_of_hasNan x hx⟩

/-- Closed instance of C10: the concrete NaN-bearing batch is mutated. -/
theorem C10_preprocess_in_place_mutation_witness :
    (ffnPre.preprocess xNanBatch).1 = (ffnPre.preprocess xNanBatch).2 ∧
    (ffnPre.preprocess xNanBatch).2 ≠ xNanBatch :=
  C10_preprocess_in_place_mutation ffnPre xNanBatch rfl rfl

/-! ### Helper lemmas about association-list dictionaries -/

theorem find?_filter_of_imp {α : Type} (p q : α → Bool) (l : List α)
    (h : ∀ a, p a = true → q a = true) :
    (l.filter q).find? p = l.find? p := by
  induction l with
  | nil => rfl
  | cons a l ih =>
    cases hq : q a with
    | true =>
      rw [List.filter_cons_of_pos hq]
      cases hp : p a with
      | true => rw [List.find?_cons_of_pos _ hp, List.find?_cons_of_pos _ hp]
      | false =>
        rw [List.find?_cons_of_neg _ (by simp [hp]),
          List.find?_cons_of_neg _ (by simp [hp]), ih]
    | false =>
      have hp : p a = false := by
        cases hpa : p a
        · rfl
        · exact absurd (h a hpa) (by simp [hq])
      rw [List.filter_cons_of_neg (by simp [hq]), List.find?_cons_of_neg _ (by simp [hp]), ih]

theorem any_filter_of_imp {α : Type} (p q : α → Bool) (l : List α)
    (h : ∀ a, p a = true → q a = true) :
    (l.filter q).any p = l.any p := by
  induction l with
  | nil => rfl
  | cons a l ih =>
    cases hq : q a with
    | true =>
      rw [List.filter_cons_of_pos hq]
      simp [List.any_cons, ih]
    | false =>
      have hp : p a = false := by
        cases hpa : p a
        · rfl
        · exact absurd (h a hpa) (by simp [hq])
      rw [List.filter_cons_of_neg (by simp [hq])]
      simp [List.any_cons, hp, ih]

theorem getVal_some_containsKey (d : SDict) (k : String) (t : Tensor)
    (h : getVal d k = some t) : containsKey d k = true := by
  unfold getVal at h
  unfold containsKey
  cases hf : d.find? (fun kv => kv.1 == k) with
  | none => rw [hf] at h; cases h
  | some kv =>
    have hmem := List.mem_of_find?_eq_some hf
    have hkv := List.find?_some hf
    exact List.any_eq_true.mpr ⟨kv, hmem, hkv⟩

theorem getVal_none_iff (d : SDict) (k : String) :
    getVal d k = none ↔ containsKey d k = false := by
  unfold getVal containsKey
  constructor
  · intro h
    cases hf : d.find? (fun kv => kv.1 == k) with
    | none =>
      rw [List.any_eq_false]
      intro kv hm
      intro hk
      have h2 := List.find?_eq_none.mp hf kv hm
      exact h2 hk
    | some kv => rw [hf] at h; cases h
  · intro h
    cases hf : d.find? (fun kv => kv.1 == k) with
    | none => rfl
    | some kv =>
      have hmem := List.mem_of_find?_eq_some hf
      have hkv := List.find?_some hf
      rw [List.any_eq_false] at h
      exact absurd hkv (h kv hmem)

theorem containsKey_filter_ne (d : SDict) (w b : String) (hne : b ≠ w) :
    containsKey (d.filter (fun kv => !(kv.1 == w))) b = containsKey d b := by
  unfold containsKey
  apply any_filter_of_imp
  intro a ha
  have h2 : a.1 = b := by simpa using ha
  simp [h2, hne]

theorem getVal_auxFilter (md pd : SDict) (k : String)
    (hk : strContains k "aux_classifier" = false) :
    getVal (auxFilter md pd) k = getVal pd k := by
  unfold auxFilter
  split
  · unfold getVal
    rw [find?_filter_of_imp]
    intro a ha
    have h2 : a.1 = k := by simpa using ha
    simp [h2, hk]
  · rfl

theorem containsKey_auxFilter (md pd : SDict) (k : String)
    (hk : strContains k "aux_classifier" = false) :
    containsKey (auxFilter md pd) k = containsKey pd k := by
  unfold auxFilter
  split
  · unfold containsKey
    apply any_filter_of_imp
    intro a ha
    have h2 : a.1 = k := by simpa using ha
    simp [h2, hk]
  · rfl

theorem mem_auxFilter_sub (md pd : SDict) (kv : String × Tensor)
    (h : kv ∈ auxFilter md pd) : kv ∈ pd := by
  unfold auxFilter at h
  split at h
  · exact (List.mem_filter.mp h).1
  · exact h

theorem not_mem_auxFilter (md pd : SDict) (kv : String × Tensor)
    (hmem : kv ∈ pd) (h : kv ∉ auxFilter md pd) :
    strContains kv.1 "aux_classifier" = true := by
  unfold auxFilter at h
  split at h
  · cases hcc : strContains kv.1 "aux_classifier" with
    | true => rfl
    | false => exact absurd (List.mem_filter.mpr ⟨hmem, by simp [hcc]⟩) h
  · exact absurd hmem h

theorem popKey_ok (d : SDict) (k : String) (res : SDict)
    (h : popKey d k = .ok res) : res = d.filter (fun kv => !(kv.1 == k)) := by
  unfold popKey at h
  split at h
  · cases h
    rfl
  · cases h

theorem classifierFilter_ok_cases (md pd res : SDict)
    (h : classifierFilter md pd = .ok res) :
    res = pd ∨
    res = (pd.filter (fun kv => !(kv.1 == "classifier.4.weight"))).filter
            (fun kv => !(kv.1 == "classifier.4.bias")) := by
  unfold classifierFilter at h
  split at h
  · cases h
  · split at h
    · cases h
    · split at h
      · cases h
      · split at h
        · cases h
        · split at h
          · split at h
            · cases h
            · split at h
              · cases h
              · cases h
                rename_i hne pd1 heq1 pd2 heq2
                right
                rw [popKey_ok pd1 "classifier.4.bias" res heq2,
                  popKey_ok pd "classifier.4.weight" pd1 heq1]
          · cases h
            exact Or.inl rfl

/-! ### Claims about `filter_pretrained_dict` -/

/-- Current-model dictionary of the C2 counterexample. -/
def mdC2 : SDict := [("classifier.4.weight", ⟨[10], []⟩)]

/-- Pretrained dictionary of the C2 counterexample: `"conv_foo.weight"` is
not a key of `mdC2`, yet filtering keeps it. -/
def pdC2 : SDict := [("classifier.4.weight", ⟨[10], []⟩), ("conv_foo.weight", ⟨[3], []⟩)]

/-- Counterexample to claim C2 as stated: filtering succeeds and keeps the
entry `"conv_foo.weight"` even though that key does not exist in the
current model's dictionary, so the claimed key/shape-compatibility
invariant does not hold after filtering. -/
theorem C2_counterexample :
    filter_pretrained_dict mdC2 pdC2 = .ok pdC2 ∧
    ("conv_foo.weight", (⟨[3], []⟩ : Tensor)) ∈ pdC2 ∧
    containsKey mdC2 "conv_foo.weight" = false := by
  refine ⟨by decide, by decide, by decide⟩

/-- Claim C2, amended: filtering is conservative rather than completing a
compatibility check. Whenever it succeeds, every entry remaining in the
output was present (key and tensor unchanged) in the input pretrained
dictionary, and every removed entry is either an aux-classifier key or
one of the two final-classifier keys; a remaining key need not exist in
the current model's dictionary, and no tensor is coerced. -/
theorem C2_filter_conservative_amended (md pd res : SDict)
    (h : filter_pretrained_dict md pd = .ok res) :
    (∀ kv : String × Tensor, kv ∈ res → kv ∈ pd) ∧
    (∀ kv : String × Tensor, kv ∈ pd → kv ∉ res →
      strContains kv.1 "aux_classifier" = true ∨
      kv.1 = "classifier.4.weight" ∨ kv.1 = "classifier.4.bias") := by
  unfold filter_pretrained_dict at h
  rcases classifierFilter_ok_cases md (auxFilter md pd) res h with rfl | rfl
  · constructor
    · intro kv hm
      exact mem_auxFilter_sub md pd kv hm
    · intro kv hmem hnot
      exact Or.inl (not_mem_auxFilter md pd kv hmem hnot)
  · constructor
    · intro kv hm
      exact mem_auxFilter_sub md pd kv (List.mem_filter.mp (List.mem_filter.mp hm).1).1
    · intro kv hmem hnot
      by_cases hw : kv.1 = "classifier.4.weight"
      · exact Or.inr (Or.inl hw)
      by_cases hb : kv.1 = "classifier.4.bias"
      · exact Or.inr (Or.inr hb)
      by_cases ha : kv ∈ auxFilter md pd
      · exact absurd (List.mem_filter.mpr ⟨List.mem_filter.mpr ⟨ha, by simp [hw]⟩,
          by simp [hb]⟩) hnot
      · exact Or.inl (not_mem_auxFilter md pd kv hmem ha)

/-- Closed instance of the amended C2 on the concrete dictionaries. -/
theorem C2_filter_conservative_amended_witness :
    ("conv_foo.weight", (⟨[3], []⟩ : Tensor)) ∈ pdC2 :=
  (C2_filter_conservative_amended mdC2 pdC2 pdC2 (by decide)).1
    ("conv_foo.weight", ⟨[3], []⟩) (by decide)

/-- Claim C3: when the pretrained dictionary contains
`"aux_classifier.0.weight"` and the current model's dictionary does not,
the aux-classifier block keeps exactly the entries whose key does not
contain `"aux_classifier"`, each with its tensor unchanged; when that
condition does not hold, the block removes nothing. -/
theorem C3_aux_classifier_filtering (md pd : SDict) :
    ((containsKey pd "aux_classifier.0.weight"
        && !(containsKey md "aux_classifier.0.weight")) = true →
      ∀ kv : String × Tensor,
        kv ∈ auxFilter md pd ↔ kv ∈ pd ∧ strContains kv.1 "aux_classifier" = false) ∧
    ((containsKey pd "aux_classifier.0.weight"
        && !(containsKey md "aux_classifier.0.weight")) = false →
      auxFilter md pd = pd) := by
  constructor
  · intro hc kv
    unfold auxFilter
    rw [hc]
    simp [List.mem_filter]
  · intro hc
    unfold auxFilter
    rw [hc]
    simp

/-- Current-model dictionary of the C3 closed check (no aux keys). -/
def mdC3 : SDict := [("backbone.conv1.weight", ⟨[64], []⟩)]

/-- Pretrained dictionary of the C3 closed check, with two aux keys. -/
def pdC3 : SDict :=
  [("aux_classifier.0.weight", ⟨[2], []⟩), ("aux_classifier.0.bias", ⟨[2], []⟩),
   ("backbone.conv1.weight", ⟨[64], []⟩)]

/-- Pretrained dictionary of the C3 closed check without aux keys. -/
def pdC3b : SDict := [("backbone.conv1.weight", ⟨[64], []⟩)]

/-- Closed instance of C3 on concrete dictionaries for both branches. -/
theorem C3_aux_classifier_filtering_witness :
    (("backbone.conv1.weight", (⟨[64], []⟩ : Tensor)) ∈ auxFilter mdC3 pdC3 ↔
      ("backbone.conv1.weight", (⟨[64], []⟩ : Tensor)) ∈ pdC3 ∧
        strContains "backbone.conv1.weight" "aux_classifier" = false) ∧
    auxFilter mdC3 pdC3b = pdC3b :=
  ⟨(C3_aux_classifier_filtering mdC3 pdC3).1 (by decide)
      ("backbone.conv1.weight", ⟨[64], []⟩),
   (C3_aux_classifier_filtering mdC3 pdC3b).2 (by decide)⟩

/-- Current-model dictionary of the C4 counterexample. -/
def mdC4 : SDict := [("classifier.4.weight", ⟨[10], []⟩)]

/-- Pretrained dictionary of the C4 counterexample: it contains the final
classifier weight (with a different first dimension) but no bias entry. -/
def pdC4 : SDict := [("classifier.4.weight", ⟨[21], []⟩)]

/-- Counterexample to claim C4 as stated: both dictionaries contain the
final classifier weight key and the first dimensions differ (10 vs 21),
yet the block does not remove the two entries and return the rest — the
pop of the absent bias entry raises `KeyError` instead. -/
theorem C4_counterexample :
    containsKey mdC4 "classifier.4.weight" = true ∧
    containsKey pdC4 "classifier.4.weight" = true ∧
    classifierFilter mdC4 pdC4 = .error (.keyError "classifier.4.bias") := by
  refine ⟨by decide, by decide, by decide⟩

/-- Claim C4, amended: for dictionaries that both contain the final
classifier weight key with a defined first dimension, and where the
pretrained dictionary also contains the bias entry, differing first
dimensions make the block remove exactly the final classifier weight and
bias entries, leaving every remaining entry untouched; equal first
dimensions make the block remove nothing. (Without the bias entry the
block fails instead of filtering, as the counterexample shows.) -/
theorem C4_classifier_removal_amended (md pd : SDict) (mw pw : Tensor) (m p : Nat)
    (hmw : getVal md "classifier.4.weight" = some mw)
    (hpw : getVal pd "classifier.4.weight" = some pw)
    (hm : shape0 mw = .ok m) (hp : shape0 pw = .ok p) :
    (m ≠ p → containsKey pd "classifier.4.bias" = true →
      classifierFilter md pd =
        .ok ((pd.filter (fun kv => !(kv.1 == "classifier.4.weight"))).filter
              (fun kv => !(kv.1 == "classifier.4.bias")))) ∧
    (m = p → classifierFilter md pd = .ok pd) := by
  have hck : containsKey pd "classifier.4.weight" = true :=
    getVal_some_containsKey pd _ pw hpw
  have h1 : getItem md "classifier.4.weight" = .ok mw := by
    unfold getItem
    rw [hmw]
  have h2 : getItem pd "classifier.4.weight" = .ok pw := by
    unfold getItem
    rw [hpw]
  constructor
  · intro hne hb
    have h3 : popKey pd "classifier.4.weight" =
        .ok (pd.filter (fun kv => !(kv.1 == "classifier.4.weight"))) := by
      unfold popKey
      rw [hck]
      simp
    have hb2 : containsKey (pd.filter (fun kv => !(kv.1 == "classifier.4.weight")))
        "classifier.4.bias" = true := by
      rw [containsKey_filter_ne pd _ _ (by decide)]
      exact hb
    have h4 : popKey (pd.filter (fun kv => !(kv.1 == "classifier.4.weight")))
        "classifier.4.bias" =
        .ok ((pd.filter (fun kv => !(kv.1 == "classifier.4.weight"))).filter
              (fun kv => !(kv.1 == "classifier.4.bias"))) := by
      unfold popKey
      rw [hb2]
      simp
    unfold classifierFilter
    simp only [h1, hm, h2, hp]
    rw [if_pos hne]
    simp only [h3, h4]
  · intro heq
    unfold classifierFilter
    simp only [h1, hm, h2, hp]
    rw [if_neg (fun hn => hn heq)]

/-- Current-model dictionary of the amended-C4 closed check. -/
def mdC4w : SDict :=
  [("classifier.4.weight", ⟨[10], []⟩), ("classifier.4.bias", ⟨[10], []⟩)]

/-- Pretrained dictionary of the amended-C4 closed check. -/
def pdC4w : SDict :=
  [("classifier.4.weight", ⟨[21], []⟩), ("classifier.4.bias", ⟨[21], []⟩),
   ("other.weight", ⟨[1], []⟩)]

/-- Closed instance of the amended C4, on both branches. -/
theorem C4_classifier_removal_amended_witness :
    classifierFilter mdC4w pdC4w =
      .ok ((pdC4w.filter (fun kv => !(kv.1 == "classifier.4.weight"))).filter
            (fun kv => !(kv.1 == "classifier.4.bias"))) ∧
    classifierFilter mdC4w mdC4w = .ok mdC4w :=
  ⟨(C4_classifier_removal_amended mdC4w pdC4w ⟨[10], []⟩ ⟨[21], []⟩ 10 21
      (by decide) (by decide) (by decide) (by decide)).1 (by decide) (by decide),
   (C4_classifier_removal_amended mdC4w mdC4w ⟨[10], []⟩ ⟨[10], []⟩ 10 10
      (by decide) (by decide) (by decide) (by decide)).2 rfl⟩

/-- Current-model dictionary of the C5 counterexample. -/
def mdC5 : SDict := [("classifier.4.weight", ⟨[5], []⟩)]

/-- Pretrained dictionary of the C5 counterexample: it contains the key
required for the classifier-shape comparison but no bias entry. -/
def pdC5 : SDict := [("classifier.4.weight", ⟨[7], []⟩)]

/-- Counterexample to claim C5 as stated: both dictionaries contain the
key used by the classifier-shape comparison, so no required key is
absent, yet filtering still fails — popping the absent bias entry raises
`KeyError` — refuting the claimed "if and only if". -/
theorem C5_counterexample :
    containsKey mdC5 "classifier.4.weight" = true ∧
    containsKey pdC5 "classifier.4.weight" = true ∧
    filter_pretrained_dict mdC5 pdC5 = .error (.keyError "classifier.4.bias") := by
  refine ⟨by decide, by decide, by decide⟩

/-- Failure characterization of the classifier block: it raises an error
exactly when the final classifier weight is absent from either dictionary,
present with an empty shape in either, or the first dimensions differ and
the bias entry is absent from the pretrained dictionary. -/
theorem classifierFilter_fails_iff (md pd : SDict) :
    (∃ e, classifierFilter md pd = .error e) ↔
      getVal md "classifier.4.weight" = none ∨
      (∃ t, getVal md "classifier.4.weight" = some t ∧ t.shape = []) ∨
      getVal pd "classifier.4.weight" = none ∨
      (∃ t, getVal pd "classifier.4.weight" = some t ∧ t.shape = []) ∨
      (∃ s t m p, getVal md "classifier.4.weight" = some s ∧
        getVal pd "classifier.4.weight" = some t ∧
        shape0 s = .ok m ∧ shape0 t = .ok p ∧ m ≠ p ∧
        containsKey pd "classifier.4.bias" = false) := by
  cases hmd : getVal md "classifier.4.weight" with
  | none =>
    have h1 : getItem md "classifier.4.weight" = .error (.keyError "classifier.4.weight") := by
      unfold getItem
      rw [hmd]
    refine iff_of_true ⟨.keyError "classifier.4.weight", ?_⟩ (Or.inl rfl)
    unfold classifierFilter
    simp only [h1]
  | some mw =>
    have h1 : getItem md "classifier.4.weight" = .ok mw := by
      unfold getItem
      rw [hmd]
    cases hms : mw.shape with
    | nil =>
      have h2 : shape0 mw = .error .indexError := by
        unfold shape0
        rw [hms]
      refine iff_of_true ⟨.indexError, ?_⟩ (Or.inr (Or.inl ⟨mw, rfl, hms⟩))
      unfold classifierFilter
      simp only [h1, h2]
    | cons m mrest =>
      have h2 : shape0 mw = .ok m := by
        unfold shape0
        rw [hms]
      cases hpd : getVal pd "classifier.4.weight" with
      | none =>
        have h3 : getItem pd "classifier.4.weight" =
            .error (.keyError "classifier.4.weight") := by
          unfold getItem
          rw [hpd]
        refine iff_of_true ⟨.keyError "classifier.4.weight", ?_⟩
          (Or.inr (Or.inr (Or.inl rfl)))
        unfold classifierFilter
        simp only [h1, h2, h3]
      | some pw =>
        have h3 : getItem pd "classifier.4.weight" = .ok pw := by
          unfold getItem
          rw [hpd]
        cases hps : pw.shape with
        | nil =>
          have h4 : shape0 pw = .error .indexError := by
            unfold shape0
            rw [hps]
          refine iff_of_true ⟨.indexError, ?_⟩
            (Or.inr (Or.inr (Or.inr (Or.inl ⟨pw, rfl, hps⟩))))
          unfold classifierFilter
          simp only [h1, h2, h3, h4]
        | cons p prest =>
          have h4 : shape0 pw = .ok p := by
            unfold shape0
            rw [hps]
          have hck : containsKey pd "classifier.4.weight" = true :=
            getVal_some_containsKey pd _ pw hpd
          have h5 : popKey pd "classifier.4.weight" =
              .ok (pd.filter (fun kv => !(kv.1 == "classifier.4.weight"))) := by
            unfold popKey
            rw [hck]
            simp
          by_cases hmp : m = p
          · refine iff_of_false ?_ ?_
            · rintro ⟨e, he⟩
              unfold classifierFilter at he
              simp only [h1, h2, h3, h4] at he
              rw [if_neg (fun hn => hn hmp)] at he
              cases he
            · rintro (h | ⟨t, ht, hsh⟩ | h | ⟨t, ht, hsh⟩ |
                ⟨s, t, m2, p2, hs, ht, hm2, hp2, hne, hb⟩)
              · cases h
              · cases ht
                rw [hms] at hsh
                cases hsh
              · cases h
              · cases ht
                rw [hps] at hsh
                cases hsh
              · cases hs
                cases ht
                rw [h2] at hm2
                cases hm2
                rw [h4] at hp2
                cases hp2
                exact hne hmp
          · cases hb : containsKey pd "classifier.4.bias" with
            | false =>
              have h6 : popKey (pd.filter (fun kv => !(kv.1 == "classifier.4.weight")))
                  "classifier.4.bias" = .error (.keyError "classifier.4.bias") := by
                unfold popKey
                rw [containsKey_filter_ne pd _ _ (by decide), hb]
                simp
              refine iff_of_true ⟨.keyError "classifier.4.bias", ?_⟩
                (Or.inr (Or.inr (Or.inr (Or.inr ⟨mw, pw, m, p, rfl, rfl, h2, h4, hmp, rfl⟩))))
              unfold classifierFilter
              simp only [h1, h2, h3, h4]
              rw [if_pos hmp]
              simp only [h5, h6]
            | true =>
              have h6 : popKey (pd.filter (fun kv => !(kv.1 == "classifier.4.weight")))
                  "classifier.4.bias" =
                  .ok ((pd.filter (fun kv => !(kv.1 == "classifier.4.weight"))).filter
                        (fun kv => !(kv.1 == "classifier.4.bias"))) := by
                unfold popKey
                rw [containsKey_filter_ne pd _ _ (by decide), hb]
                simp
              refine iff_of_false ?_ ?_
              · rintro ⟨e, he⟩
                unfold classifierFilter at he
                simp only [h1, h2, h3, h4] at he
                rw [if_pos hmp] at he
                simp only [h5, h6] at he
                cases he
              · rintro (h | ⟨t, ht, hsh⟩ | h | ⟨t, ht, hsh⟩ |
                  ⟨s, t, m2, p2, hs, ht, hm2, hp2, hne, hb2⟩)
                · cases h
                · cases ht
                  rw [hms] at hsh
                  cases hsh
                · cases h
                · cases ht
                  rw [hps] at hsh
                  cases hsh
                · exact absurd hb2 (by decide)

/-- Failures of filtering surface during construction: the model's own
state dictionary is filtered against the loaded checkpoint inside
`get_model`, and any error propagates out of `FFN.__init__`. -/
theorem init50_filter_propagates (ckpt : SDict) (e : FilterError)
    (he : filter_pretrained_dict deeplabv3_resnet50.state_dict ckpt = .error e) :
    FFN.init "ResNet50" (some ckpt) = .error (.filterError e) := by
  have hg : get_model (some ckpt) deeplabv3_resnet50 = .error e := by
    unfold get_model
    simp only [he]
  unfold FFN.init
  rw [if_pos rfl]
  simp only [hg]

/-- Claim C5, amended: filtering fails exactly when the final classifier
weight key is absent from either dictionary, or is present with an empty
shape (so there is no first dimension to compare) in either, or the two
first dimensions differ and the bias key `"classifier.4.bias"` is absent
from the pretrained dictionary; failure is not equivalent to a comparison
key being absent. Such a failure is raised during construction and is
fatal: `FFN.init` propagates it. -/
theorem C5_fails_iff_amended (md pd : SDict) :
    ((∃ e, filter_pretrained_dict md pd = .error e) ↔
      getVal md "classifier.4.weight" = none ∨
      (∃ t, getVal md "classifier.4.weight" = some t ∧ t.shape = []) ∨
      getVal pd "classifier.4.weight" = none ∨
      (∃ t, getVal pd "classifier.4.weight" = some t ∧ t.shape = []) ∨
      (∃ s t m p, getVal md "classifier.4.weight" = some s ∧
        getVal pd "classifier.4.weight" = some t ∧
        shape0 s = .ok m ∧ shape0 t = .ok p ∧ m ≠ p ∧
        containsKey pd "classifier.4.bias" = false)) ∧
    (∀ ckpt e, filter_pretrained_dict deeplabv3_resnet50.state_dict ckpt = .error e →
      FFN.init "ResNet50" (some ckpt) = .error (.filterError e)) := by
  constructor
  · have h := classifierFilter_fails_iff md (auxFilter md pd)
    rw [getVal_auxFilter md pd "classifier.4.weight" (by decide),
        containsKey_auxFilter md pd "classifier.4.bias" (by decide)] at h
    exact h
  · exact init50_filter_propagates

/-- Closed instance of the amended C5: a checkpoint without the weight key
fails filtering, and a shape-incompatible checkpoint without the bias key
makes construction fail with the propagated `KeyError`. -/
theorem C5_fails_iff_amended_witness :
    (∃ e, filter_pretrained_dict mdC5 [] = .error e) ∧
    FFN.init "ResNet50" (some mdC5) =
      .error (.filterError (.keyError "classifier.4.bias")) :=
  ⟨(C5_fails_iff_amended mdC5 []).1.mpr (Or.inr (Or.inr (Or.inl (by decide)))),
   (C5_fails_iff_amended mdC5 mdC5).2 mdC5 (.keyError "classifier.4.bias") (by decide)⟩
